import Mathlib

/-!
Verification of the server-listing query-filter pipeline of
`src/djchat/server/views.py` (`ServerListViewSet.list`).

The pipeline reads five optional query parameters (`category`, `qty`,
`by_user`, `by_serverid`, `with_num_members`), an authentication context,
and the base collection of server entities, and either produces a
filtered/annotated/bounded result list or fails.  The embedding below
follows the source line by line:

  - `request.query_params.get(k)` yields `None` when the key is absent,
    modelled by `Option String`;
  - Python `if s:` on an optional string is true exactly when the value is
    present and non-empty, modelled by `pyTruthy`;
  - `request.query_params.get("by_user") == "true"` is an exact string
    comparison, modelled by `params.by_user == some "true"`;
  - `raise AuthenticationFailed()` / `raise ValidationError(detail=...)`
    are the typed failures; a `ValueError` escaping `int(qty)` (or the
    unsupported negative slice) is an uncaught exception, modelled by the
    separate `PipeM.uncaught` outcome.
-/

namespace DjChat

/-- A server record.  `views.py` touches the fields `category__name`
(the name of the related category), `id`, and the `member` many-to-many
relation; `member` is the list of user-id rows of that relation. -/
structure ServerEntity where
  id : Int
  categoryName : String
  member : List Nat
deriving Repr, DecidableEq

/-- The authentication result consumed from `request.user`:
`is_authenticated` and `id`. -/
structure AuthContext where
  authenticated : Bool
  userId : Nat
deriving Repr, DecidableEq

/-- The raw parameter bag, `request.query_params`: each key is either
absent (`none`) or bound to a raw string. -/
structure QueryParams where
  category : Option String := none
  qty : Option String := none
  by_user : Option String := none
  by_serverid : Option String := none
  with_num_members : Option String := none
deriving Repr, DecidableEq

/-- The typed failures of the view: `AuthenticationFailed` and
`ValidationError(detail=...)`. -/
inductive PipelineError where
  | authenticationFailed : PipelineError
  | validationError : String → PipelineError
deriving Repr, DecidableEq

/-- Outcome of a pipeline stage: a value, a typed failure raised by the
view, or an exception the view does not catch (such as the `ValueError`
from `int(qty)` on a malformed string). -/
inductive PipeM (α : Type) where
  | ok : α → PipeM α
  | err : PipelineError → PipeM α
  | uncaught : PipeM α
deriving Repr, DecidableEq

/-- A server together with the optional `num_members` value attached by
`annotate(num_members=Count("member"))`. -/
structure AnnotatedServer where
  server : ServerEntity
  num_members : Option Nat
deriving Repr, DecidableEq

/-- What the serializer receives: the final queryset and the
`num_members` context flag telling it whether the count annotation is
present. -/
structure FilterOutcome where
  servers : List AnnotatedServer
  annotated_with_member_count : Bool
deriving Repr, DecidableEq

/-- Python truthiness of an optional string (`if category:` etc.):
true exactly when present and non-empty. -/
def pyTruthy : Option String → Bool
  | none => false
  | some s => s != ""

/-- Value of a run of decimal digits. -/
def digitsToNat (l : List Char) : Nat :=
  l.foldl (fun acc c => 10 * acc + (c.toNat - 48)) 0

/-- A non-empty all-digit run parses; anything else does not. -/
def parseDigits (l : List Char) : Option Nat :=
  if l ≠ [] ∧ l.all Char.isDigit then some (digitsToNat l) else none

/-- Python `int(s)` on a decimal string, as used by `int(qty)` and by the
integer conversion inside `filter(id=by_serverid)`: surrounding
whitespace is stripped, then an optional sign followed by at least one
digit.  (Underscore digit-grouping is not modelled; no claim involves
it.)  Returns `none` where Python raises `ValueError`. -/
def pyParseInt (s : String) : Option Int :=
  let cs := (s.toList.dropWhile Char.isWhitespace).reverse.dropWhile Char.isWhitespace
  match cs.reverse with
  | [] => none
  | c :: rest =>
    if c = '-' then (parseDigits rest).map (fun n => -(n : Int))
    else if c = '+' then (parseDigits rest).map (fun n => (n : Int))
    else (parseDigits (c :: rest)).map (fun n => (n : Int))

/-- Modelled from the spec: the `Server` model and its `member`
many-to-many relation live in `server/models.py`, which is not under
`src/`; the spec (section 3 and section 4.1 stage 3) defines `member` as
a set of user ids and the annotation as "the count of distinct members
(duplicates in the member relation must not inflate the count — count
distinct member ids)". -/
def countDistinctMembers (s : ServerEntity) : Nat :=
  s.member.dedup.length

/-- Stage 1 (`views.py` lines 77-78): when `category` is truthy, narrow
the queryset to servers whose category name equals it exactly. -/
def categoryStage (category : Option String) (base : List ServerEntity) : List ServerEntity :=
  if pyTruthy category then
    base.filter (fun s => s.categoryName == category.getD "")
  else base

/-- Stage 2 (`views.py` lines 80-84): when `by_user` is set, the queryset
is narrowed to servers containing the caller among their members when
authenticated — and then `AuthenticationFailed` is raised
unconditionally, the `raise` sitting outside the `is_authenticated`
branch, so the narrowed queryset is discarded. -/
def byUserStage (by_user : Bool) (auth : AuthContext) (l : List ServerEntity) :
    PipeM (List ServerEntity) :=
  if by_user then
    let _narrowed :=
      if auth.authenticated then l.filter (fun s => s.member.contains auth.userId) else l
    PipeM.err PipelineError.authenticationFailed
  else PipeM.ok l

/-- Stage 3 (`views.py` lines 86-87): when `with_num_members` is set,
attach the member count to each server; otherwise attach nothing. -/
def annotateStage (with_num_members : Bool) (l : List ServerEntity) : List AnnotatedServer :=
  if with_num_members then
    l.map (fun s => { server := s, num_members := some (countDistinctMembers s) })
  else l.map (fun s => { server := s, num_members := none })

/-- Stage 4 (`views.py` lines 89-99): when `by_serverid` is truthy,
require authentication, then narrow to the server with that id; a value
that does not convert to an integer raises
`ValidationError("Server value error")` (the `ValueError` is caught),
and an id matching nothing raises
`ValidationError("Server with id {v} not found")`. -/
def byServerIdStage (by_serverid : Option String) (auth : AuthContext)
    (l : List AnnotatedServer) : PipeM (List AnnotatedServer) :=
  if pyTruthy by_serverid then
    if !auth.authenticated then PipeM.err PipelineError.authenticationFailed
    else
      let v := by_serverid.getD ""
      match pyParseInt v with
      | none => PipeM.err (PipelineError.validationError "Server value error")
      | some n =>
        let narrowed := l.filter (fun s => s.server.id == n)
        if narrowed.isEmpty then
          PipeM.err (PipelineError.validationError ("Server with id " ++ v ++ " not found"))
        else PipeM.ok narrowed
  else PipeM.ok l

/-- Stage 5 (`views.py` lines 101-102): when `qty` is truthy, slice the
queryset to its first `int(qty)` elements.  A `qty` that does not convert
raises an uncaught `ValueError`; a negative one makes the slice raise an
uncaught negative-indexing error. -/
def qtyStage (qty : Option String) (l : List AnnotatedServer) : PipeM (List AnnotatedServer) :=
  if pyTruthy qty then
    match pyParseInt (qty.getD "") with
    | none => PipeM.uncaught
    | some n => if n < 0 then PipeM.uncaught else PipeM.ok (l.take n.toNat)
  else PipeM.ok l

/-- Stages 1-4 composed, in the source's order: category filter, by-user
filter, member-count annotation, by-server-id filter. -/
def stages14 (params : QueryParams) (auth : AuthContext) (base : List ServerEntity) :
    PipeM (List AnnotatedServer) :=
  match byUserStage (params.by_user == some "true") auth (categoryStage params.category base) with
  | PipeM.err e => PipeM.err e
  | PipeM.uncaught => PipeM.uncaught
  | PipeM.ok q2 =>
    byServerIdStage params.by_serverid auth
      (annotateStage (params.with_num_members == some "true") q2)

/-- The whole of `ServerListViewSet.list`: stages 1-4, then the `qty`
slice, then the hand-off to the serializer with the `num_members`
context flag. -/
def pipelineList (params : QueryParams) (auth : AuthContext) (base : List ServerEntity) :
    PipeM FilterOutcome :=
  match stages14 params auth base with
  | PipeM.err e => PipeM.err e
  | PipeM.uncaught => PipeM.uncaught
  | PipeM.ok q4 =>
    match qtyStage params.qty q4 with
    | PipeM.err e => PipeM.err e
    | PipeM.uncaught => PipeM.uncaught
    | PipeM.ok q5 =>
      PipeM.ok { servers := q5,
                 annotated_with_member_count := params.with_num_members == some "true" }

/-! Helper lemmas shared by several claims. -/

lemma pyParseInt_empty : pyParseInt "" = none := rfl

lemma ne_empty_of_parse {v : String} {n : Int} (h : pyParseInt v = some n) : v ≠ "" := by
  intro hv
  rw [hv, pyParseInt_empty] at h
  exact Option.noConfusion h

lemma pyTruthy_some {v : String} (h : v ≠ "") : pyTruthy (some v) = true := by
  simp [pyTruthy, h]

lemma flag_false {o : Option String} (h : o ≠ some "true") : (o == some "true") = false := by
  simp [h]

lemma qtyStage_no_err (qty : Option String) (l : List AnnotatedServer) (e : PipelineError) :
    qtyStage qty l ≠ PipeM.err e := by
  unfold qtyStage
  split
  · split
    · exact fun h => PipeM.noConfusion h
    · split
      · exact fun h => PipeM.noConfusion h
      · exact fun h => PipeM.noConfusion h
  · exact fun h => PipeM.noConfusion h

lemma annotateStage_mem_server {f : Bool} {l : List ServerEntity} {s : AnnotatedServer}
    (h : s ∈ annotateStage f l) : s.server ∈ l := by
  cases f <;> simp [annotateStage] at h <;>
    obtain ⟨x, hx, rfl⟩ := h <;> simpa using hx

lemma annotateStage_true_counts {l : List ServerEntity} {s : AnnotatedServer}
    (h : s ∈ annotateStage true l) : s.num_members = some (countDistinctMembers s.server) := by
  simp [annotateStage] at h
  obtain ⟨x, _, rfl⟩ := h
  rfl

lemma byServerIdStage_ok_mem {bs : Option String} {a : AuthContext}
    {l l2 : List AnnotatedServer} (h : byServerIdStage bs a l = PipeM.ok l2) :
    ∀ s ∈ l2, s ∈ l := by
  unfold byServerIdStage at h
  split at h
  · split at h
    · exact PipeM.noConfusion h
    · dsimp only at h
      split at h
      · exact PipeM.noConfusion h
      · split at h
        · exact PipeM.noConfusion h
        · cases h
          intro s hs
          exact List.mem_of_mem_filter hs
  · cases h
    exact fun s hs => hs

/-- C1: the claim says an authenticated caller with `by_user=true` passes the
by-user stage without an error; on the code, `raise AuthenticationFailed()`
sits outside the `is_authenticated` branch of `views.py` lines 80-84, so even
the authenticated caller gets the failure.  The view's own docstring (line 40)
documents the error as raised only "If the user is not authenticated", so the
code contradicts its documentation: this evaluates the pipeline at an
authenticated `by_user=true` request and shows the failure. -/
theorem byUser_authenticated_still_fails :
    pipelineList { by_user := some "true" }
      { authenticated := true, userId := 1 }
      [{ id := 1, categoryName := "web", member := [1] }] =
    PipeM.err PipelineError.authenticationFailed := rfl

/-- C2: for every request with `by_user=true` and an unauthenticated caller,
the pipeline fails with the authentication error (the member narrowing of
that stage, which the code only performs in the authenticated branch, is
skipped). -/
theorem byUser_unauthenticated_fails (p : QueryParams) (a : AuthContext)
    (b : List ServerEntity) (hu : p.by_user = some "true") (_ha : a.authenticated = false) :
    pipelineList p a b = PipeM.err PipelineError.authenticationFailed := by
  simp [pipelineList, stages14, byUserStage, hu]

/-- Witness for C2 at a concrete unauthenticated `by_user=true` request. -/
theorem byUser_unauthenticated_fails_witness :
    pipelineList { by_user := some "true" } { authenticated := false, userId := 0 } [] =
      PipeM.err PipelineError.authenticationFailed :=
  byUser_unauthenticated_fails { by_user := some "true" }
    { authenticated := false, userId := 0 } [] rfl rfl

/-- C3 counterexample: a request with `by_serverid` present but bound to the
empty string, from an unauthenticated caller, does not fail with the
authentication error — Python's `if by_serverid:` skips the stage, and the
pipeline succeeds. -/
theorem byServerId_empty_unauthenticated_ok :
    pipelineList { by_serverid := some "" }
      { authenticated := false, userId := 0 }
      [{ id := 1, categoryName := "web", member := [] }] =
    PipeM.ok { servers := [{ server := { id := 1, categoryName := "web", member := [] },
                             num_members := none }],
               annotated_with_member_count := false } := rfl

/-- C3 as amended: for every request with `by_serverid` present with a
NON-EMPTY value and an unauthenticated caller, the pipeline fails with the
authentication error, regardless of whether the value parses as an integer
and regardless of whether an entity with that id exists. -/
theorem byServerId_nonempty_unauthenticated_fails (p : QueryParams) (a : AuthContext)
    (b : List ServerEntity) (v : String) (hv : p.by_serverid = some v) (hne : v ≠ "")
    (ha : a.authenticated = false) :
    pipelineList p a b = PipeM.err PipelineError.authenticationFailed := by
  have ht : pyTruthy p.by_serverid = true := by rw [hv]; exact pyTruthy_some hne
  by_cases hbu : p.by_user = some "true"
  · simp [pipelineList, stages14, byUserStage, hbu]
  · simp [pipelineList, stages14, byUserStage, flag_false hbu, byServerIdStage, ht, ha]

/-- Witness for the amended C3 at `by_serverid="9"`, unauthenticated. -/
theorem byServerId_nonempty_unauthenticated_fails_witness :
    pipelineList { by_serverid := some "9" } { authenticated := false, userId := 0 } [] =
      PipeM.err PipelineError.authenticationFailed :=
  byServerId_nonempty_unauthenticated_fails { by_serverid := some "9" }
    { authenticated := false, userId := 0 } [] "9" rfl (by decide) rfl

/-- C4 counterexample: a request satisfying the claim's hypotheses — an
authenticated caller and a `by_serverid` value (here the combined input
`by_user="true"`, `by_serverid=""`) that does not parse as an integer — does
not fail with the "Server value error" validation failure: the by-user stage
raises the authentication error first, and an empty `by_serverid` would be
skipped anyway. -/
theorem byServerId_unparseable_counterexample :
    pipelineList { by_user := some "true", by_serverid := some "" }
        { authenticated := true, userId := 1 } [] =
      PipeM.err PipelineError.authenticationFailed ∧
    PipeM.err (α := List AnnotatedServer) PipelineError.authenticationFailed ≠
      PipeM.err (PipelineError.validationError "Server value error") := by
  exact ⟨rfl, by decide⟩

/-- C4 as amended: for every request with an authenticated caller, with
`by_user` not equal to `"true"`, and with a NON-EMPTY `by_serverid` value
that does not parse as an integer, the pipeline fails with the
"Server value error" validation failure. -/
theorem byServerId_unparseable_fails (p : QueryParams) (a : AuthContext)
    (b : List ServerEntity) (v : String) (hv : p.by_serverid = some v) (hne : v ≠ "")
    (hp : pyParseInt v = none) (ha : a.authenticated = true) (hbu : p.by_user ≠ some "true") :
    pipelineList p a b = PipeM.err (PipelineError.validationError "Server value error") := by
  have ht : pyTruthy p.by_serverid = true := by rw [hv]; exact pyTruthy_some hne
  have hg : p.by_serverid.getD "" = v := by rw [hv]; rfl
  simp [pipelineList, stages14, byUserStage, flag_false hbu, byServerIdStage, ht, ha, hg, hp]

/-- Witness for the amended C4 at `by_serverid="abc"`, authenticated. -/
theorem byServerId_unparseable_fails_witness :
    pipelineList { by_serverid := some "abc" } { authenticated := true, userId := 1 } [] =
      PipeM.err (PipelineError.validationError "Server value error") :=
  byServerId_unparseable_fails { by_serverid := some "abc" }
    { authenticated := true, userId := 1 } [] "abc" rfl (by decide) rfl rfl (by decide)

/-- C5 counterexample: a request satisfying the claim's hypotheses — an
authenticated caller, `by_serverid="999"` parsing as an integer matching no
entity — but with `by_user="true"` also set fails with the authentication
error from the by-user stage, not with the "not found" validation failure
the claim promises. -/
theorem byServerId_not_found_counterexample :
    pipelineList { by_user := some "true", by_serverid := some "999" }
        { authenticated := true, userId := 1 } [] =
      PipeM.err PipelineError.authenticationFailed ∧
    PipeM.err (α := List AnnotatedServer) PipelineError.authenticationFailed ≠
      PipeM.err (PipelineError.validationError "Server with id 999 not found") := by
  exact ⟨rfl, by decide⟩

/-- C5 as amended: for every request with an authenticated caller, with
`by_user` not equal to `"true"`, and with a `by_serverid` value that parses
as an integer matching no entity id in the working collection (the
category-narrowed base), the pipeline fails with the validation failure
whose detail is "Server with id {value} not found", containing the given
id. -/
theorem byServerId_not_found_fails (p : QueryParams) (a : AuthContext)
    (b : List ServerEntity) (v : String) (n : Int) (hv : p.by_serverid = some v)
    (hp : pyParseInt v = some n) (ha : a.authenticated = true)
    (hbu : p.by_user ≠ some "true")
    (hmiss : ∀ s ∈ categoryStage p.category b, s.id ≠ n) :
    pipelineList p a b =
      PipeM.err (PipelineError.validationError ("Server with id " ++ v ++ " not found")) := by
  have ht : pyTruthy p.by_serverid = true := by
    rw [hv]; exact pyTruthy_some (ne_empty_of_parse hp)
  have hg : p.by_serverid.getD "" = v := by rw [hv]; rfl
  have hfil : ∀ f : Bool,
      (annotateStage f (categoryStage p.category b)).filter
        (fun s => s.server.id == n) = [] := by
    intro f
    rw [List.filter_eq_nil_iff]
    intro s hs
    have := hmiss s.server (annotateStage_mem_server hs)
    simpa using this
  simp [pipelineList, stages14, byUserStage, flag_false hbu, byServerIdStage, ht, ha, hg, hp,
    hfil]

/-- Witness for the amended C5 at `by_serverid="999"` over an empty base. -/
theorem byServerId_not_found_fails_witness :
    pipelineList { by_serverid := some "999" } { authenticated := true, userId := 1 } [] =
      PipeM.err (PipelineError.validationError "Server with id 999 not found") :=
  byServerId_not_found_fails { by_serverid := some "999" }
    { authenticated := true, userId := 1 } [] "999" 999 rfl rfl rfl (by decide)
    (by intro s hs; cases hs)

lemma qtyStage_ok_mem {qty : Option String} {l l2 : List AnnotatedServer}
    (h : qtyStage qty l = PipeM.ok l2) : ∀ s ∈ l2, s ∈ l := by
  unfold qtyStage at h
  split at h
  · split at h
    · exact PipeM.noConfusion h
    · split at h
      · exact PipeM.noConfusion h
      · cases h
        exact fun s hs => List.take_subset _ _ hs
  · cases h
    exact fun s hs => hs

lemma pipelineList_ok_inv {p : QueryParams} {a : AuthContext} {b : List ServerEntity}
    {out : FilterOutcome} (h : pipelineList p a b = PipeM.ok out) :
    ∃ q, stages14 p a b = PipeM.ok q ∧ qtyStage p.qty q = PipeM.ok out.servers ∧
      out.annotated_with_member_count = (p.with_num_members == some "true") := by
  unfold pipelineList at h
  cases hs : stages14 p a b with
  | err e => rw [hs] at h; exact PipeM.noConfusion h
  | uncaught => rw [hs] at h; exact PipeM.noConfusion h
  | ok q =>
    rw [hs] at h
    dsimp only at h
    cases hq : qtyStage p.qty q with
    | err e => rw [hq] at h; exact PipeM.noConfusion h
    | uncaught => rw [hq] at h; exact PipeM.noConfusion h
    | ok q5 =>
      rw [hq] at h
      dsimp only at h
      injection h with h2
      subst h2
      exact ⟨q, rfl, hq, rfl⟩

lemma stages14_ok_counts {p : QueryParams} {a : AuthContext} {b : List ServerEntity}
    {q : List AnnotatedServer} (hw : p.with_num_members = some "true")
    (h : stages14 p a b = PipeM.ok q) :
    ∀ s ∈ q, s.num_members = some (countDistinctMembers s.server) := by
  unfold stages14 at h
  cases hbu : byUserStage (p.by_user == some "true") a (categoryStage p.category b) with
  | err e => rw [hbu] at h; exact PipeM.noConfusion h
  | uncaught => rw [hbu] at h; exact PipeM.noConfusion h
  | ok q2 =>
    rw [hbu] at h
    dsimp only at h
    intro s hs
    have hmem := byServerIdStage_ok_mem h s hs
    rw [hw] at hmem
    exact annotateStage_true_counts (by simpa using hmem)

/-- C6: for every successful request with `with_num_members=true`, the
outcome's annotation flag is set if and only if the annotation stage ran
(that is, iff `with_num_members` equals `"true"`), and every entity of the
outcome carries the number of distinct member ids linked to it, duplicate
rows in the member relation notwithstanding. -/
theorem with_num_members_annotates (p : QueryParams) (a : AuthContext)
    (b : List ServerEntity) (out : FilterOutcome)
    (hok : pipelineList p a b = PipeM.ok out) :
    (out.annotated_with_member_count = true ↔ p.with_num_members = some "true") ∧
    (p.with_num_members = some "true" →
      ∀ s ∈ out.servers, s.num_members = some s.server.member.toFinset.card) := by
  obtain ⟨q, hs, hq, hflag⟩ := pipelineList_ok_inv hok
  constructor
  · rw [hflag]
    simp
  · intro hw s hmem
    have h1 := stages14_ok_counts hw hs s (qtyStage_ok_mem hq s hmem)
    rw [h1, countDistinctMembers, List.card_toFinset]

/-- Witness for C6: over a single server whose member relation holds the
rows `[1, 2, 2]`, a successful `with_num_members=true` request annotates it
with the distinct count. -/
theorem with_num_members_annotates_witness :
    ({ server := { id := 1, categoryName := "web", member := [1, 2, 2] },
       num_members := some 2 } : AnnotatedServer).num_members =
      some ({ id := 1, categoryName := "web", member := [1, 2, 2] } :
        ServerEntity).member.toFinset.card :=
  (with_num_members_annotates { with_num_members := some "true" }
      { authenticated := false, userId := 0 }
      [{ id := 1, categoryName := "web", member := [1, 2, 2] }]
      { servers := [{ server := { id := 1, categoryName := "web", member := [1, 2, 2] },
                      num_members := some 2 }],
        annotated_with_member_count := true } rfl).2 rfl
    { server := { id := 1, categoryName := "web", member := [1, 2, 2] },
      num_members := some 2 } (by simp)

/-- C7: for every successful request whose `qty` value parses to a
non-negative integer n, the outcome is the first n entities, in order, of
the collection produced by stages 1-4; its length is the minimum of n and
that collection's size, and never exceeds n. -/
theorem qty_bounds (p : QueryParams) (a : AuthContext) (b : List ServerEntity)
    (v : String) (n : Nat) (out : FilterOutcome) (q : List AnnotatedServer)
    (hv : p.qty = some v) (hp : pyParseInt v = some (Int.ofNat n))
    (h14 : stages14 p a b = PipeM.ok q) (hok : pipelineList p a b = PipeM.ok out) :
    out.servers = q.take n ∧ out.servers.length = min n q.length ∧
      out.servers.length ≤ n := by
  have ht : pyTruthy p.qty = true := by rw [hv]; exact pyTruthy_some (ne_empty_of_parse hp)
  have hg : p.qty.getD "" = v := by rw [hv]; rfl
  have hqty : qtyStage p.qty q = PipeM.ok (q.take n) := by
    unfold qtyStage
    rw [ht, hg, hp]
    simp
  unfold pipelineList at hok
  rw [h14] at hok
  dsimp only at hok
  rw [hqty] at hok
  dsimp only at hok
  injection hok with h2
  subst h2
  exact ⟨rfl, List.length_take _ _, by simp [List.length_take]⟩

/-- Witness for C7: `qty="2"` over three servers keeps the first two. -/
theorem qty_bounds_witness :
    ([{ server := { id := 1, categoryName := "a", member := [] }, num_members := none },
      { server := { id := 2, categoryName := "a", member := [] }, num_members := none }] :
        List AnnotatedServer) =
      ([{ server := { id := 1, categoryName := "a", member := [] }, num_members := none },
        { server := { id := 2, categoryName := "a", member := [] }, num_members := none },
        { server := { id := 3, categoryName := "a", member := [] }, num_members := none }] :
          List AnnotatedServer).take 2 ∧
    ([{ server := { id := 1, categoryName := "a", member := [] }, num_members := none },
      { server := { id := 2, categoryName := "a", member := [] }, num_members := none }] :
        List AnnotatedServer).length = min 2 3 ∧
    ([{ server := { id := 1, categoryName := "a", member := [] }, num_members := none },
      { server := { id := 2, categoryName := "a", member := [] }, num_members := none }] :
        List AnnotatedServer).length ≤ 2 :=
  qty_bounds { qty := some "2" } { authenticated := false, userId := 0 }
    [{ id := 1, categoryName := "a", member := [] },
     { id := 2, categoryName := "a", member := [] },
     { id := 3, categoryName := "a", member := [] }] "2" 2
    { servers := [{ server := { id := 1, categoryName := "a", member := [] },
                    num_members := none },
                  { server := { id := 2, categoryName := "a", member := [] },
                    num_members := none }],
      annotated_with_member_count := false }
    [{ server := { id := 1, categoryName := "a", member := [] }, num_members := none },
     { server := { id := 2, categoryName := "a", member := [] }, num_members := none },
     { server := { id := 3, categoryName := "a", member := [] }, num_members := none }]
    rfl rfl rfl rfl

lemma pipelineList_err_from_stages {p : QueryParams} {a : AuthContext}
    {b : List ServerEntity} {e : PipelineError}
    (h : pipelineList p a b = PipeM.err e) : stages14 p a b = PipeM.err e := by
  unfold pipelineList at h
  cases hs : stages14 p a b with
  | err e2 => rw [hs] at h; dsimp only at h; injection h with h2; rw [h2]
  | uncaught => rw [hs] at h; exact PipeM.noConfusion h
  | ok q =>
    rw [hs] at h
    dsimp only at h
    cases hq : qtyStage p.qty q with
    | err e2 => exact absurd hq (qtyStage_no_err _ _ _)
    | uncaught => rw [hq] at h; exact PipeM.noConfusion h
    | ok q5 => rw [hq] at h; exact PipeM.noConfusion h

lemma annotateStage_nil (f : Bool) : annotateStage f [] = [] := by
  cases f <;> rfl

lemma pipelineList_ok_of_category_nil {p : QueryParams} {a : AuthContext}
    {b : List ServerEntity} {out : FilterOutcome}
    (hnil : categoryStage p.category b = [])
    (hok : pipelineList p a b = PipeM.ok out) : out.servers = [] := by
  obtain ⟨q, hs, hq, _⟩ := pipelineList_ok_inv hok
  have hqn : q = [] := by
    unfold stages14 at hs
    rw [hnil] at hs
    cases hbu : (p.by_user == some "true") with
    | true => rw [hbu] at hs; simp [byUserStage] at hs
    | false =>
      rw [hbu] at hs
      simp only [byUserStage, Bool.false_eq_true, if_false, annotateStage_nil] at hs
      have := byServerIdStage_ok_mem hs
      exact List.eq_nil_iff_forall_not_mem.mpr fun s hmem => by simpa using this s hmem
  rw [hqn] at hq
  have := qtyStage_ok_mem hq
  exact List.eq_nil_iff_forall_not_mem.mpr fun s hmem => by simpa using this s hmem

/-- C8 counterexample: a request satisfying the claim's hypotheses — `qty`
present with the value `""`, which does not parse as an integer (here
together with `by_serverid="x"` and an authenticated caller) — fails with
the TYPED validation failure of the by-serverid stage, not with an uncaught
propagated error: the empty `qty` would be skipped by `if qty:` anyway. -/
theorem qty_unparseable_counterexample :
    pipelineList { qty := some "", by_serverid := some "x" }
        { authenticated := true, userId := 1 } [] =
      PipeM.err (PipelineError.validationError "Server value error") ∧
    (PipeM.err (PipelineError.validationError "Server value error") :
        PipeM FilterOutcome) ≠ PipeM.uncaught := by
  exact ⟨rfl, by decide⟩

/-- C8 as amended: for every request whose `qty` is present with a NON-EMPTY
value that does not parse as an integer, and in which stages 1-4 succeed,
the pipeline fails with the uncaught propagated error — which is distinct
from every typed failure. -/
theorem qty_unparseable_uncaught (p : QueryParams) (a : AuthContext)
    (b : List ServerEntity) (v : String) (q : List AnnotatedServer)
    (hv : p.qty = some v) (hne : v ≠ "") (hp : pyParseInt v = none)
    (h14 : stages14 p a b = PipeM.ok q) :
    pipelineList p a b = PipeM.uncaught := by
  have hqty : qtyStage p.qty q = PipeM.uncaught := by
    simp [qtyStage, hv, pyTruthy_some hne, hp]
  unfold pipelineList
  rw [h14]
  dsimp only
  rw [hqty]

/-- Witness for the amended C8 at `qty="abc"` over an empty base. -/
theorem qty_unparseable_uncaught_witness :
    pipelineList { qty := some "abc" } { authenticated := false, userId := 0 } [] =
      PipeM.uncaught :=
  qty_unparseable_uncaught { qty := some "abc" } { authenticated := false, userId := 0 }
    [] "abc" [] rfl (by decide) rfl rfl

/-- C9 counterexample: with `category` present but bound to the empty
string, the stage is skipped — the outcome keeps a server whose category
name `"web"` differs from the given string `""`, instead of being the empty
narrowing the claim promises. -/
theorem category_empty_counterexample :
    pipelineList { category := some "" } { authenticated := false, userId := 0 }
      [{ id := 1, categoryName := "web", member := [] }] =
    PipeM.ok { servers := [{ server := { id := 1, categoryName := "web", member := [] },
                             num_members := none }],
               annotated_with_member_count := false } := rfl

/-- C9 as amended: for every request with `category` present with a
NON-EMPTY value, the stage narrows the base to exactly the entities whose
category name equals the value (string equality, hence case-sensitive), and
when no entity matches and the pipeline succeeds the outcome is the empty
sequence. -/
theorem category_filters (p : QueryParams) (a : AuthContext) (b : List ServerEntity)
    (v : String) (hc : p.category = some v) (hne : v ≠ "") :
    (∀ s : ServerEntity, s ∈ categoryStage p.category b ↔ s ∈ b ∧ s.categoryName = v) ∧
    (∀ out : FilterOutcome, (∀ s ∈ b, s.categoryName ≠ v) →
      pipelineList p a b = PipeM.ok out → out.servers = []) := by
  have ht : pyTruthy p.category = true := by rw [hc]; exact pyTruthy_some hne
  have hg : p.category.getD "" = v := by rw [hc]; rfl
  constructor
  · intro s
    simp [categoryStage, ht, hg, List.mem_filter]
  · intro out hmiss hok
    have hnil : categoryStage p.category b = [] := by
      simp only [categoryStage, ht, if_true, hg, List.filter_eq_nil_iff]
      intro s hs
      simpa using hmiss s hs
    exact pipelineList_ok_of_category_nil hnil hok

/-- Witness for the amended C9: with `category="db"`, a server of category
`"web"` is in the narrowed collection exactly when it matches, which it
does not. -/
theorem category_filters_witness :
    (({ id := 1, categoryName := "web", member := [] } : ServerEntity) ∈
        categoryStage (some "db") [{ id := 1, categoryName := "web", member := [] }] ↔
      ({ id := 1, categoryName := "web", member := [] } : ServerEntity) ∈
          [({ id := 1, categoryName := "web", member := [] } : ServerEntity)] ∧
        "web" = "db") :=
  (category_filters { category := some "db" } { authenticated := false, userId := 0 }
      [{ id := 1, categoryName := "web", member := [] }] "db" rfl (by decide)).1
    { id := 1, categoryName := "web", member := [] }

/-- C10: a `category`, `qty` or `by_serverid` parameter present with the
empty string as its value is treated exactly as if it were absent — the
pipeline's outcome is unchanged by replacing the empty value with absence —
and in particular an empty `by_serverid` from an unauthenticated caller
(with `by_user` not requested, whose own stage fails independently) never
yields the authentication failure. -/
theorem empty_param_treated_as_absent (p : QueryParams) (a : AuthContext)
    (b : List ServerEntity) :
    pipelineList { p with category := some "" } a b =
        pipelineList { p with category := none } a b ∧
    pipelineList { p with qty := some "" } a b =
        pipelineList { p with qty := none } a b ∧
    pipelineList { p with by_serverid := some "" } a b =
        pipelineList { p with by_serverid := none } a b ∧
    (p.by_user ≠ some "true" → a.authenticated = false →
      pipelineList { p with by_serverid := some "" } a b ≠
        PipeM.err PipelineError.authenticationFailed) := by
  refine ⟨rfl, rfl, rfl, ?_⟩
  intro hbu _ha h
  have h14 : stages14 { p with by_serverid := some "" } a b =
      PipeM.ok (annotateStage (p.with_num_members == some "true")
        (categoryStage p.category b)) := by
    simp [stages14, byUserStage, flag_false hbu, byServerIdStage, pyTruthy]
  have := pipelineList_err_from_stages h
  rw [h14] at this
  exact PipeM.noConfusion this

/-- Witness for C10 at concrete inputs: an empty `by_serverid` from an
unauthenticated caller does not produce the authentication failure. -/
theorem empty_param_treated_as_absent_witness :
    pipelineList { ({} : QueryParams) with by_serverid := some "" }
        { authenticated := false, userId := 0 }
        [{ id := 1, categoryName := "web", member := [] }] ≠
      PipeM.err PipelineError.authenticationFailed :=
  (empty_param_treated_as_absent {} { authenticated := false, userId := 0 }
      [{ id := 1, categoryName := "web", member := [] }]).2.2.2 (by decide) rfl

end DjChat
